import Mathlib

/-!
# unicapture: frame conversion, backend loading and the compositing loop

A shallow embedding of `src/unicapture.c`.

* Heap blocks are described by their address and their size in bytes; the C
  code only stores the address, the size is the size of the block the address
  was obtained for (the last `realloc` request).
* `realloc` is a function of the environment: it receives the allocator state,
  the old address and the requested size, and returns the new address and the
  new allocator state.  Allocation is taken to succeed: the block behind the
  returned address has the requested size.
* Widths, heights and strides are 32-bit unsigned members, as in the data model
  of the specification; their products are taken modulo 2^32.
* Calls into libyuv and into the capture backends are recorded in call logs, in
  program order; pixel data is not modelled.
-/

namespace Unicapture

/-! ## Data model -/

/-- Modelled from the spec: the enumeration pixel_format_t is declared in
unicapture.h, which is not among the sources.  The spec lists INVALID, RGB,
ARGB, ABGR, YUV420_SEMI_PLANAR, YUV422_SEMI_PLANAR and further values; the
further values are the constructor PIXFMT_OTHER. -/
inductive pixel_format_t where
  | PIXFMT_INVALID
  | PIXFMT_RGB
  | PIXFMT_ARGB
  | PIXFMT_ABGR
  | PIXFMT_YUV420_SEMI_PLANAR
  | PIXFMT_YUV422_SEMI_PLANAR
  | PIXFMT_OTHER (code : Nat)
  deriving DecidableEq, Repr

open pixel_format_t

/-- Modelled from the spec: one plane of a frame descriptor (unicapture.h is not
among the sources): a borrowed buffer address and a u32 stride. -/
structure plane_t where
  buffer : Nat
  stride : Nat
  deriving DecidableEq, Repr

/-- Modelled from the spec: the frame descriptor frame_info_t (unicapture.h is
not among the sources): pixel format, u32 width and height, four planes. -/
structure frame_info_t where
  pixel_format : pixel_format_t
  width : Nat
  height : Nat
  planes0 : plane_t
  planes1 : plane_t
  planes2 : plane_t
  planes3 : plane_t
  deriving DecidableEq, Repr

/-- The initialiser `{PIXFMT_INVALID}`: format INVALID, every other member zero. -/
def frame_invalid : frame_info_t :=
  ⟨PIXFMT_INVALID, 0, 0, ⟨0, 0⟩, ⟨0, 0⟩, ⟨0, 0⟩, ⟨0, 0⟩⟩

/-- A heap block: its address (0 is NULL) and its size in bytes. -/
structure buffer_t where
  ptr : Nat
  size : Nat
  deriving DecidableEq, Repr

/-- The NULL pointer: no block. -/
def buffer_null : buffer_t := ⟨0, 0⟩

/-- The struct converter_t: `uint8_t* buffers[4]`. -/
structure converter_t where
  buffers0 : buffer_t
  buffers1 : buffer_t
  buffers2 : buffer_t
  buffers3 : buffer_t
  deriving DecidableEq, Repr

/-- The function converter_init: every slot is set to NULL. -/
def converter_init : converter_t :=
  ⟨buffer_null, buffer_null, buffer_null, buffer_null⟩

/-! ## Environment: 32-bit arithmetic, the allocator, libyuv -/

/-- The product of two u32 values, as computed by the machine. -/
def u32_mul (a b : Nat) : Nat := (a * b) % 4294967296

/-- The allocator behind `realloc`: allocator state, old address, requested size
give the new address and the new allocator state. -/
abbrev allocator_t := Nat → Nat → Nat → Nat × Nat

/-- The call `realloc(b, n)`: the block moves to the address the allocator
chooses and has size n afterwards. -/
def realloc (sys : allocator_t) (heap : Nat) (b : buffer_t) (n : Nat) : buffer_t × Nat :=
  (⟨(sys heap b.ptr n).1, n⟩, (sys heap b.ptr n).2)

/-- The external calls made by converter_run, with their arguments; the
realloc entry names the scratch slot it resizes and the requested size. -/
inductive call_t where
  | realloc (slot : Nat) (size : Nat)
  | RGB24ToARGB (src src_stride dst dst_stride width height : Nat)
  | ABGRToARGB (src src_stride dst dst_stride width height : Nat)
  | NV21ToARGB (src_y stride_y src_vu stride_vu dst dst_stride width height : Nat)
  | SplitUVPlane (src_uv stride_uv dst_u stride_u dst_v stride_v width height : Nat)
  | I422ToARGB (src_y stride_y src_u stride_u src_v stride_v dst dst_stride width height : Nat)
  deriving DecidableEq, Repr

/-! ## converter_run -/

/-- What a call of converter_run leaves behind: the returned status, the
converter, the output descriptor, the allocator state and the external calls
made, in order. -/
structure converter_result where
  status : Int
  conv : converter_t
  output : frame_info_t
  heap : Nat
  calls : List call_t
  deriving DecidableEq, Repr

/-- The function converter_run (unicapture.c, lines 48-122). -/
def converter_run (sys : allocator_t) (heap : Nat) (conv : converter_t)
    (input output : frame_info_t) (target_format : pixel_format_t) : converter_result :=
  if target_format = PIXFMT_ARGB then
    let out1 : frame_info_t := { output with width := input.width, height := input.height }
    let size0 := u32_mul (u32_mul out1.width out1.height) 4
    let r0 := realloc sys heap conv.buffers0 size0
    let conv1 : converter_t := { conv with buffers0 := r0.1 }
    let out2 : frame_info_t :=
      { out1 with planes0 := ⟨conv1.buffers0.ptr, u32_mul out1.width 4⟩ }
    if input.pixel_format = PIXFMT_RGB then
      { status := 0
        conv := conv1
        output := { out2 with pixel_format := PIXFMT_ARGB }
        heap := r0.2
        calls := [call_t.realloc 0 size0,
          call_t.RGB24ToARGB input.planes0.buffer input.planes0.stride
            out2.planes0.buffer out2.planes0.stride out2.width out2.height] }
    else if input.pixel_format = PIXFMT_ABGR then
      { status := 0
        conv := conv1
        output := { out2 with pixel_format := PIXFMT_ARGB }
        heap := r0.2
        calls := [call_t.realloc 0 size0,
          call_t.ABGRToARGB input.planes0.buffer input.planes0.stride
            out2.planes0.buffer out2.planes0.stride out2.width out2.height] }
    else if input.pixel_format = PIXFMT_YUV420_SEMI_PLANAR then
      { status := 0
        conv := conv1
        output := { out2 with pixel_format := PIXFMT_ARGB }
        heap := r0.2
        calls := [call_t.realloc 0 size0,
          call_t.NV21ToARGB input.planes0.buffer input.planes0.stride
            input.planes1.buffer input.planes1.stride
            out2.planes0.buffer out2.planes0.stride out2.width out2.height] }
    else if input.pixel_format = PIXFMT_YUV422_SEMI_PLANAR then
      let size1 := u32_mul (input.width / 2) input.height
      let r1 := realloc sys r0.2 conv1.buffers1 size1
      let conv2 : converter_t := { conv1 with buffers1 := r1.1 }
      let r2 := realloc sys r1.2 conv2.buffers2 size1
      let conv3 : converter_t := { conv2 with buffers2 := r2.1 }
      { status := 0
        conv := conv3
        output := { out2 with pixel_format := PIXFMT_ARGB }
        heap := r2.2
        calls := [call_t.realloc 0 size0, call_t.realloc 1 size1, call_t.realloc 2 size1,
          call_t.SplitUVPlane input.planes1.buffer input.planes1.stride
            conv3.buffers1.ptr (input.width / 2) conv3.buffers2.ptr (input.width / 2)
            (input.width / 2) input.height,
          call_t.I422ToARGB input.planes0.buffer input.planes0.stride
            conv3.buffers2.ptr (input.width / 2) conv3.buffers1.ptr (input.width / 2)
            out2.planes0.buffer out2.planes0.stride out2.width out2.height] }
    else
      { status := -2, conv := conv1, output := out2, heap := r0.2,
        calls := [call_t.realloc 0 size0] }
  else
    { status := -1, conv := conv, output := output, heap := heap, calls := [] }

/-- The source formats converter_run converts to ARGB. -/
def supported_source (f : pixel_format_t) : Prop :=
  f = PIXFMT_RGB ∨ f = PIXFMT_ABGR ∨ f = PIXFMT_YUV420_SEMI_PLANAR ∨
    f = PIXFMT_YUV422_SEMI_PLANAR

instance (f : pixel_format_t) : Decidable (supported_source f) := by
  unfold supported_source; infer_instance

/-- An allocator used in examples: blocks are handed out at increasing
addresses, 4096 bytes apart; a request of size zero yields NULL. -/
def bump_alloc : allocator_t :=
  fun heap _ n => (if n = 0 then 0 else 4096 * (heap + 1), heap + 1)

/-- An RGB frame of the given dimensions in backend memory at address 64. -/
def rgb_frame (w h : Nat) : frame_info_t :=
  ⟨PIXFMT_RGB, w, h, ⟨64, u32_mul w 3⟩, ⟨0, 0⟩, ⟨0, 0⟩, ⟨0, 0⟩⟩

/-- The number of bytes of an ARGB image of the dimensions of the frame. -/
def argb_bytes (f : frame_info_t) : Nat := f.width * f.height * 4

/-- Scratch slot number slot is passed to realloc during the call. -/
def resized (r : converter_result) (slot : Nat) : Prop :=
  ∃ n, call_t.realloc slot n ∈ r.calls

/-- A sequence of converter_run calls with target ARGB on one converter, each
with a fresh output descriptor: the results of the calls, in order. -/
def converter_run_seq (sys : allocator_t) :
    Nat → converter_t → List frame_info_t → List converter_result
  | _, _, [] => []
  | heap, conv, input :: rest =>
    (converter_run sys heap conv input frame_invalid PIXFMT_ARGB) ::
      converter_run_seq sys
        (converter_run sys heap conv input frame_invalid PIXFMT_ARGB).heap
        (converter_run sys heap conv input frame_invalid PIXFMT_ARGB).conv rest

/-! ## Capture backends and the loader -/

/-- Modelled from the spec: the backend configuration struct
cap_backend_config_t (declared outside the sources): resolution, frame rate
and a reserved member. -/
structure cap_backend_config_t where
  resolution_width : Nat
  resolution_height : Nat
  fps : Nat
  reserved : Nat
  deriving DecidableEq, Repr

/-- The behaviour of capture_init: the status it returns and the state it
stores through its out-parameter. -/
abbrev init_fn := cap_backend_config_t → Int × Nat

/-- The behaviour of capture_cleanup, capture_start, capture_terminate and
capture_wait: backend state in, status and backend state out. -/
abbrev state_fn := Nat → Int × Nat

/-- The behaviour of capture_acquire_frame: backend state and the descriptor it
is handed in; status, the descriptor as it leaves it, backend state out. -/
abbrev acquire_fn := Nat → frame_info_t → Int × frame_info_t × Nat

/-- The behaviour of capture_release_frame: backend state and the descriptor
in, backend state out. -/
abbrev release_fn := Nat → frame_info_t → Nat

/-- Modelled from the spec: the backend handle capture_backend_t (unicapture.h
is not among the sources): name, backend state and the function table.  A
member that is none is a NULL pointer. -/
structure capture_backend_t where
  name : Option String
  state : Nat
  init : Option init_fn
  cleanup : Option state_fn
  start : Option state_fn
  terminate : Option state_fn
  acquire_frame : Option acquire_fn
  release_frame : Option release_fn
  wait : Option state_fn

/-- A shared object as dlsym sees it: for each of the seven symbols, the function
it exports, or none when the lookup sets dlerror. -/
structure module_t where
  capture_init : Option init_fn
  capture_cleanup : Option state_fn
  capture_start : Option state_fn
  capture_terminate : Option state_fn
  capture_acquire_frame : Option acquire_fn
  capture_release_frame : Option release_fn
  capture_wait : Option state_fn

/-- The dynamic linker: dlopen of a name yields a module, or none (NULL). -/
abbrev dl_t := String → Option module_t

/-- The calls the loader makes that the claims count. -/
inductive load_call_t where
  | dlopen (name : String)
  | capture_init (name : String)
  deriving DecidableEq, Repr

/-- What unicapture_init_backend leaves behind: status, the backend handle and
the calls made, in order. -/
structure load_result where
  status : Int
  backend : capture_backend_t
  calls : List load_call_t

/-- The function unicapture_init_backend (unicapture.c, lines 124-158), with the
check DLSYM_ERROR_CHECK (lines 10-14) after each dlsym. -/
def unicapture_init_backend (dl : dl_t) (config : cap_backend_config_t)
    (backend : capture_backend_t) (name : String) : load_result :=
  match dl name with
  | none => ⟨-1, backend, [load_call_t.dlopen name]⟩
  | some handle =>
    match handle.capture_init with
    | none => ⟨-2, { backend with init := none }, [load_call_t.dlopen name]⟩
    | some f_init =>
    let b1 : capture_backend_t := { backend with init := some f_init }
    match handle.capture_cleanup with
    | none => ⟨-2, { b1 with cleanup := none }, [load_call_t.dlopen name]⟩
    | some f_cleanup =>
    let b2 : capture_backend_t := { b1 with cleanup := some f_cleanup }
    match handle.capture_start with
    | none => ⟨-2, { b2 with start := none }, [load_call_t.dlopen name]⟩
    | some f_start =>
    let b3 : capture_backend_t := { b2 with start := some f_start }
    match handle.capture_terminate with
    | none => ⟨-2, { b3 with terminate := none }, [load_call_t.dlopen name]⟩
    | some f_terminate =>
    let b4 : capture_backend_t := { b3 with terminate := some f_terminate }
    match handle.capture_acquire_frame with
    | none => ⟨-2, { b4 with acquire_frame := none }, [load_call_t.dlopen name]⟩
    | some f_acquire =>
    let b5 : capture_backend_t := { b4 with acquire_frame := some f_acquire }
    match handle.capture_release_frame with
    | none => ⟨-2, { b5 with release_frame := none }, [load_call_t.dlopen name]⟩
    | some f_release =>
    let b6 : capture_backend_t := { b5 with release_frame := some f_release }
    match handle.capture_wait with
    | none => ⟨-2, { b6 with wait := none }, [load_call_t.dlopen name]⟩
    | some f_wait =>
    let b7 : capture_backend_t := { b6 with wait := some f_wait }
    let ret := (f_init config).1
    let b8 : capture_backend_t := { b7 with state := (f_init config).2 }
    if ret = 0 then
      ⟨ret, { b8 with name := some name },
        [load_call_t.dlopen name, load_call_t.capture_init name]⟩
    else
      ⟨ret, b8, [load_call_t.dlopen name, load_call_t.capture_init name]⟩

/-- The function unicapture_try_backends (unicapture.c, lines 160-166); the
NULL-terminated array of names is the list of the names before the NULL. -/
def unicapture_try_backends (dl : dl_t) (config : cap_backend_config_t) :
    capture_backend_t → List String → load_result
  | backend, [] => ⟨-1, backend, []⟩
  | backend, name :: rest =>
    if (unicapture_init_backend dl config backend name).status = 0 then
      ⟨0, (unicapture_init_backend dl config backend name).backend,
        (unicapture_init_backend dl config backend name).calls⟩
    else
      ⟨(unicapture_try_backends dl config
          (unicapture_init_backend dl config backend name).backend rest).status,
        (unicapture_try_backends dl config
          (unicapture_init_backend dl config backend name).backend rest).backend,
        (unicapture_init_backend dl config backend name).calls ++
          (unicapture_try_backends dl config
            (unicapture_init_backend dl config backend name).backend rest).calls⟩

/-- All seven required symbols are exported by the module. -/
def exports_all (m : module_t) : Prop :=
  m.capture_init.isSome ∧ m.capture_cleanup.isSome ∧ m.capture_start.isSome ∧
  m.capture_terminate.isSome ∧ m.capture_acquire_frame.isSome ∧
  m.capture_release_frame.isSome ∧ m.capture_wait.isSome

/-- The candidate loads and initialises: dlopen resolves it, the seven symbols
bind, and capture_init returns 0. -/
def candidate_ok (dl : dl_t) (config : cap_backend_config_t) (name : String) : Prop :=
  ∃ m f, dl name = some m ∧ exports_all m ∧ m.capture_init = some f ∧ (f config).1 = 0

/-- The handle a module leaves in the backend when it loads and initialises. -/
def handle_of (config : cap_backend_config_t) (name : String) (m : module_t)
    (f : init_fn) : capture_backend_t :=
  { name := some name
    state := (f config).2
    init := m.capture_init
    cleanup := m.capture_cleanup
    start := m.capture_start
    terminate := m.capture_terminate
    acquire_frame := m.capture_acquire_frame
    release_frame := m.capture_release_frame
    wait := m.capture_wait }

/-- The names passed to dlopen, in order. -/
def attempts : List load_call_t → List String
  | [] => []
  | load_call_t.dlopen name :: rest => name :: attempts rest
  | load_call_t.capture_init _ :: rest => attempts rest

/-- The number of calls of capture_init. -/
def init_calls : List load_call_t → Nat
  | [] => 0
  | load_call_t.dlopen _ :: rest => init_calls rest
  | load_call_t.capture_init _ :: rest => init_calls rest + 1

/-- A backend handle with nothing bound. -/
def backend_unbound : capture_backend_t :=
  ⟨none, 0, none, none, none, none, none, none, none⟩

/-- An example module exporting all seven symbols; capture_init returns the
given status, capture_acquire_frame hands back the given status and frame. -/
def example_module (init_status : Int) (acquire_status : Int) (frame : frame_info_t) :
    module_t :=
  { capture_init := some (fun _ => (init_status, 7))
    capture_cleanup := some (fun st => (0, st))
    capture_start := some (fun st => (0, st))
    capture_terminate := some (fun st => (0, st))
    capture_acquire_frame := some (fun st _ => (acquire_status, frame, st + 1))
    capture_release_frame := some (fun st _ => st)
    capture_wait := some (fun st => (0, st)) }

/-- An example module that lacks capture_wait. -/
def example_module_no_wait : module_t :=
  { example_module 0 0 frame_invalid with capture_wait := none }

/-- An example linker: liba.so does not resolve, libb.so lacks capture_wait,
libc.so fails to initialise with status 5, libd.so and libe.so load. -/
def example_dl : dl_t := fun name =>
  if name = "libb.so" then some example_module_no_wait
  else if name = "libc.so" then some (example_module 5 0 frame_invalid)
  else if name = "libd.so" then some (example_module 0 0 (rgb_frame 2 2))
  else if name = "libe.so" then some (example_module 0 0 frame_invalid)
  else none

/-- An example configuration. -/
def example_config : cap_backend_config_t := ⟨1920, 1080, 30, 0⟩

/-! ## The compositing loop -/

/-- The two capture streams. -/
inductive stream_t where
  | ui
  | video
  deriving DecidableEq, Repr

/-- The calls one iteration of the loop makes, with their arguments: the
backend calls, converter_run with the status it returned (the loop ignores
it) and the external calls it made, the two realloc calls and the blend of the
composite stage, and the warning of the branch without a valid frame. -/
inductive event_t where
  | start (s : stream_t)
  | acquire_frame (s : stream_t) (ret : Int)
  | converter_run (s : stream_t) (status : Int) (calls : List call_t)
  | realloc_blended (size : Nat)
  | realloc_final (size : Nat)
  | ARGBBlend (src0 stride0 src1 stride1 dst dst_stride width height : Nat)
  | warn_no_valid_frame
  | release_frame (s : stream_t) (frame : frame_info_t)
  deriving DecidableEq, Repr

/-- Modelled from the spec: the session struct unicapture_state_t (unicapture.h
is not among the sources), reduced to the two optional backends; the
members of the vsync thread are not modelled. -/
structure unicapture_state_t where
  ui_capture : Option capture_backend_t
  video_capture : Option capture_backend_t

/-- The variables of unicapture_run that live across iterations (lines
189-216), and the allocator state. -/
structure run_t where
  ui_capture : Option capture_backend_t
  video_capture : Option capture_backend_t
  ui_converter : converter_t
  video_converter : converter_t
  blended_frame : buffer_t
  final_frame : buffer_t
  framecounter : Nat
  heap : Nat

/-- The variables of one iteration (lines 231-234) as they stand at its end,
and the calls it made, in order. -/
structure tick_t where
  ui_frame : frame_info_t
  ui_frame_converted : frame_info_t
  video_frame : frame_info_t
  video_frame_converted : frame_info_t
  events : List event_t
  deriving DecidableEq, Repr

/-- The outcome of the acquire stage for one stream: the backend after the
call, the acquired frame, the calls made. -/
structure acquire_t where
  capture : Option capture_backend_t
  frame : frame_info_t
  events : List event_t

/-- The outcome of the convert stage for one stream: the converter after the
call, the converted frame, the allocator state, the calls made. -/
structure convert_t where
  conv : converter_t
  frame_converted : frame_info_t
  heap : Nat
  events : List event_t
  deriving DecidableEq, Repr

/-- The outcome of the composite stage: the two output buffers, the allocator
state, the calls made. -/
structure composite_t where
  blended_frame : buffer_t
  final_frame : buffer_t
  heap : Nat
  events : List event_t
  deriving DecidableEq, Repr

/-- The outcome of the release stage for one stream: the backend after the
call, the calls made. -/
structure release_t where
  capture : Option capture_backend_t
  events : List event_t

/-- Lines 237-241 and 243-248: acquire_frame on a backend that is present, into
a descriptor initialised to `{PIXFMT_INVALID}`; a non-zero status marks the
frame INVALID.  The result is none when the call goes through a NULL function
pointer. -/
def tick_acquire (s : stream_t) (capture : Option capture_backend_t) : Option acquire_t :=
  match capture with
  | none => some ⟨none, frame_invalid, []⟩
  | some b =>
    match b.acquire_frame with
    | none => none
    | some f =>
      if (f b.state frame_invalid).1 ≠ 0 then
        some ⟨some { b with state := (f b.state frame_invalid).2.2 },
          { (f b.state frame_invalid).2.1 with pixel_format := PIXFMT_INVALID },
          [event_t.acquire_frame s (f b.state frame_invalid).1]⟩
      else
        some ⟨some { b with state := (f b.state frame_invalid).2.2 },
          (f b.state frame_invalid).2.1,
          [event_t.acquire_frame s (f b.state frame_invalid).1]⟩

/-- Lines 254-256 and 258-260: a frame that is not INVALID is run through the
converter of its stream with target ARGB, into a descriptor initialised to
`{PIXFMT_INVALID}`; the returned status is not looked at. -/
def tick_convert (sys : allocator_t) (s : stream_t) (heap : Nat) (conv : converter_t)
    (frame : frame_info_t) : convert_t :=
  if frame.pixel_format ≠ PIXFMT_INVALID then
    ⟨(converter_run sys heap conv frame frame_invalid PIXFMT_ARGB).conv,
      (converter_run sys heap conv frame frame_invalid PIXFMT_ARGB).output,
      (converter_run sys heap conv frame frame_invalid PIXFMT_ARGB).heap,
      [event_t.converter_run s
        (converter_run sys heap conv frame frame_invalid PIXFMT_ARGB).status
        (converter_run sys heap conv frame frame_invalid PIXFMT_ARGB).calls]⟩
  else
    ⟨conv, frame_invalid, heap, []⟩

/-- Lines 264-288: the composite stage.  With both converted frames valid the
two output buffers are resized from the dimensions of the video frame and
ARGBBlend is called; the two branches for a single valid frame are empty
(each holds a TODO comment); with no valid frame a warning is logged.  The
sizes are 32-bit products, like those of converter_run. -/
def tick_composite (sys : allocator_t) (heap : Nat) (blended_frame final_frame : buffer_t)
    (ui_frame_converted video_frame_converted : frame_info_t) : composite_t :=
  if video_frame_converted.pixel_format ≠ PIXFMT_INVALID ∧
      ui_frame_converted.pixel_format ≠ PIXFMT_INVALID then
    let width := video_frame_converted.width
    let height := video_frame_converted.height
    let rb := realloc sys heap blended_frame (u32_mul (u32_mul width height) 4)
    let rf := realloc sys rb.2 final_frame (u32_mul (u32_mul width height) 3)
    ⟨rb.1, rf.1, rf.2,
      [event_t.realloc_blended (u32_mul (u32_mul width height) 4),
        event_t.realloc_final (u32_mul (u32_mul width height) 3),
        event_t.ARGBBlend ui_frame_converted.planes0.buffer ui_frame_converted.planes0.stride
          video_frame_converted.planes0.buffer video_frame_converted.planes0.stride
          rb.1.ptr (u32_mul 4 width) width height]⟩
  else if ui_frame_converted.pixel_format ≠ PIXFMT_INVALID then
    ⟨blended_frame, final_frame, heap, []⟩
  else if video_frame_converted.pixel_format ≠ PIXFMT_INVALID then
    ⟨blended_frame, final_frame, heap, []⟩
  else
    ⟨blended_frame, final_frame, heap, [event_t.warn_no_valid_frame]⟩

/-- Lines 295-297 and 299-301: release_frame is called when the format of the
acquired frame is not INVALID.  The result is none when the backend pointer
or the function pointer is NULL. -/
def tick_release (s : stream_t) (capture : Option capture_backend_t) (frame : frame_info_t) :
    Option release_t :=
  if frame.pixel_format ≠ PIXFMT_INVALID then
    match capture with
    | none => none
    | some b =>
      match b.release_frame with
      | none => none
      | some f => some ⟨some { b with state := f b.state frame }, [event_t.release_frame s frame]⟩
  else
    some ⟨capture, []⟩

/-- One iteration of the loop of unicapture_run (lines 221-317), from the return
of the wait on the vsync condition to the end of the body; the clock readings
and the log lines of the report are not modelled. -/
def unicapture_run_tick (sys : allocator_t) (st : run_t) : Option (run_t × tick_t) :=
  (tick_acquire stream_t.ui st.ui_capture).bind fun ui =>
  (tick_acquire stream_t.video st.video_capture).bind fun video =>
  let ui_c := tick_convert sys stream_t.ui st.heap st.ui_converter ui.frame
  let video_c := tick_convert sys stream_t.video ui_c.heap st.video_converter video.frame
  let out := tick_composite sys video_c.heap st.blended_frame st.final_frame
    ui_c.frame_converted video_c.frame_converted
  (tick_release stream_t.ui ui.capture ui.frame).bind fun ui_r =>
  (tick_release stream_t.video video.capture video.frame).bind fun video_r =>
    some
      ({ ui_capture := ui_r.capture
         video_capture := video_r.capture
         ui_converter := ui_c.conv
         video_converter := video_c.conv
         blended_frame := out.blended_frame
         final_frame := out.final_frame
         framecounter := if st.framecounter + 1 ≥ 60 then 0 else st.framecounter + 1
         heap := out.heap },
       { ui_frame := ui.frame
         ui_frame_converted := ui_c.frame_converted
         video_frame := video.frame
         video_frame_converted := video_c.frame_converted
         events := ui.events ++ video.events ++ ui_c.events ++ video_c.events ++
           out.events ++ ui_r.events ++ video_r.events })

/-- The loop `while (true)` of unicapture_run, for as many iterations as the
vsync condition is signalled: the state after them and the record of each
iteration, in order.  The loop has no exit; the result is none only when an
iteration calls through a NULL pointer. -/
def unicapture_run_loop (sys : allocator_t) : Nat → run_t → Option (run_t × List tick_t)
  | 0, st => some (st, [])
  | n + 1, st =>
    match unicapture_run_tick sys st with
    | none => none
    | some (st1, t) =>
      match unicapture_run_loop sys n st1 with
      | none => none
      | some (st2, ts) => some (st2, t :: ts)

/-- The loop variables as the set-up of unicapture_run leaves them (lines
189-216): the two backends, two fresh converters, the two output buffers NULL,
the frame counter at 0. -/
def run_initial (heap : Nat) (ui_capture video_capture : Option capture_backend_t) : run_t :=
  { ui_capture := ui_capture
    video_capture := video_capture
    ui_converter := converter_init
    video_converter := converter_init
    blended_frame := buffer_null
    final_frame := buffer_null
    framecounter := 0
    heap := heap }

/-- Lines 204-206 and 208-210: start is called on a backend that is present. -/
def run_start (capture : Option capture_backend_t) : Option (Option capture_backend_t) :=
  match capture with
  | none => some none
  | some b =>
    match b.start with
    | none => none
    | some f => some (some { b with state := (f b.state).2 })

/-- The function unicapture_run (lines 188-317): the set-up, then the loop for
the given number of vsync signals. -/
def unicapture_run (sys : allocator_t) (heap : Nat) (state : unicapture_state_t)
    (signals : Nat) : Option (run_t × List tick_t) :=
  match run_start state.ui_capture with
  | none => none
  | some ui_capture =>
  match run_start state.video_capture with
  | none => none
  | some video_capture =>
    unicapture_run_loop sys signals (run_initial heap ui_capture video_capture)

/-- The backend of the stream. -/
def run_t.capture (st : run_t) : stream_t → Option capture_backend_t
  | stream_t.ui => st.ui_capture
  | stream_t.video => st.video_capture

/-- The acquired frame of the stream in the record of an iteration. -/
def tick_t.frame (t : tick_t) : stream_t → frame_info_t
  | stream_t.ui => t.ui_frame
  | stream_t.video => t.video_frame

/-- The converted frame of the stream in the record of an iteration. -/
def tick_t.frame_converted (t : tick_t) : stream_t → frame_info_t
  | stream_t.ui => t.ui_frame_converted
  | stream_t.video => t.video_frame_converted

/-- The number of release_frame calls on the backend of the stream. -/
def release_count (s : stream_t) : List event_t → Nat
  | [] => 0
  | event_t.release_frame s1 _ :: rest =>
    if s1 = s then release_count s rest + 1 else release_count s rest
  | _ :: rest => release_count s rest

/-- The number of ARGBBlend calls. -/
def blend_count : List event_t → Nat
  | [] => 0
  | event_t.ARGBBlend _ _ _ _ _ _ _ _ :: rest => blend_count rest + 1
  | _ :: rest => blend_count rest

/-- The function pointers the loop calls through are bound, for a backend that
is present. -/
def capture_bound (capture : Option capture_backend_t) : Prop :=
  ∀ b, capture = some b → b.acquire_frame.isSome ∧ b.release_frame.isSome

/-- The function pointer start is bound, for a backend that is present. -/
def start_bound (capture : Option capture_backend_t) : Prop :=
  ∀ b, capture = some b → b.start.isSome

/-- The handle the example module leaves behind when loaded as libd.so. -/
def example_backend (acquire_status : Int) (frame : frame_info_t) : capture_backend_t :=
  handle_of example_config "libd.so" (example_module 0 acquire_status frame)
    (fun _ => (0, 7))

/-! ## Lemmas on the 32-bit products -/

theorem u32_mul_of_lt (a b : Nat) (h : a * b < 4294967296) : u32_mul a b = a * b := by
  unfold u32_mul
  exact Nat.mod_eq_of_lt h

theorem u32_size0_of_lt (w h : Nat) (hlt : w * h * 4 < 4294967296) :
    u32_mul (u32_mul w h) 4 = w * h * 4 := by
  have h1 : w * h < 4294967296 := by omega
  rw [u32_mul_of_lt w h h1, u32_mul_of_lt (w * h) 4 hlt]

/-! ## converter_run -/

/-- What a call with target ARGB does to slot 0, slot 3 and the output
descriptor, whatever the source format: the dimensions are copied, slot 0 is
resized to the 32-bit product width*height*4 and plane 0 is pointed at it. -/
theorem converter_run_argb_common (sys : allocator_t) (heap : Nat) (conv : converter_t)
    (input output : frame_info_t) :
    (converter_run sys heap conv input output PIXFMT_ARGB).output.width = input.width ∧
    (converter_run sys heap conv input output PIXFMT_ARGB).output.height = input.height ∧
    (converter_run sys heap conv input output PIXFMT_ARGB).output.planes0.stride
      = u32_mul input.width 4 ∧
    (converter_run sys heap conv input output PIXFMT_ARGB).output.planes0.buffer
      = (converter_run sys heap conv input output PIXFMT_ARGB).conv.buffers0.ptr ∧
    (converter_run sys heap conv input output PIXFMT_ARGB).conv.buffers0.size
      = u32_mul (u32_mul input.width input.height) 4 ∧
    call_t.realloc 0 (u32_mul (u32_mul input.width input.height) 4)
      ∈ (converter_run sys heap conv input output PIXFMT_ARGB).calls := by
  simp only [converter_run, realloc]
  split_ifs <;> simp

/-- A supported source format with target ARGB gives status 0 and an output of
format ARGB. -/
theorem converter_run_supported (sys : allocator_t) (heap : Nat) (conv : converter_t)
    (input output : frame_info_t) (hfmt : supported_source input.pixel_format) :
    (converter_run sys heap conv input output PIXFMT_ARGB).status = 0 ∧
    (converter_run sys heap conv input output PIXFMT_ARGB).output.pixel_format
      = PIXFMT_ARGB := by
  unfold supported_source at hfmt
  unfold converter_run
  rcases hfmt with h | h | h | h <;> simp [h]

/-- An unsupported source format with target ARGB gives status -2 and leaves
the format of the output descriptor as it was. -/
theorem converter_run_unsupported (sys : allocator_t) (heap : Nat) (conv : converter_t)
    (input output : frame_info_t) (hfmt : ¬ supported_source input.pixel_format) :
    (converter_run sys heap conv input output PIXFMT_ARGB).status = -2 ∧
    (converter_run sys heap conv input output PIXFMT_ARGB).output.pixel_format
      = output.pixel_format := by
  unfold supported_source at hfmt
  simp only [not_or] at hfmt
  obtain ⟨h1, h2, h3, h4⟩ := hfmt
  simp [converter_run, h1, h2, h3, h4]

/-- The status of a call with target ARGB is 0 or -2. -/
theorem converter_run_argb_status (sys : allocator_t) (heap : Nat) (conv : converter_t)
    (input output : frame_info_t) :
    ((converter_run sys heap conv input output PIXFMT_ARGB).status = 0 ∧
      supported_source input.pixel_format) ∨
    ((converter_run sys heap conv input output PIXFMT_ARGB).status = -2 ∧
      ¬ supported_source input.pixel_format) := by
  by_cases h : supported_source input.pixel_format
  · exact Or.inl ⟨(converter_run_supported sys heap conv input output h).1, h⟩
  · exact Or.inr ⟨(converter_run_unsupported sys heap conv input output h).1, h⟩

/-- C1 as stated fails: a 65536 x 65536 RGB frame is converted with status 0,
but scratch buffer 0 is resized to 0 bytes, not to 65536*65536*4 bytes: the
size is computed in 32 bits. -/
theorem converter_run_size_wraps :
    (converter_run bump_alloc 0 converter_init (rgb_frame 65536 65536) frame_invalid
        PIXFMT_ARGB).status = 0 ∧
    (converter_run bump_alloc 0 converter_init (rgb_frame 65536 65536) frame_invalid
        PIXFMT_ARGB).conv.buffers0.size = 0 ∧
    (converter_run bump_alloc 0 converter_init (rgb_frame 65536 65536) frame_invalid
        PIXFMT_ARGB).conv.buffers0.size ≠ 65536 * 65536 * 4 := by
  decide

/-- C1, amended: for every converter state and every input frame whose format is
RGB, ABGR, YUV420_SEMI_PLANAR or YUV422_SEMI_PLANAR, and every width and height
for which width*4 and width*height*4 are below 2^32, converter_run with target
ARGB returns 0; the output has format ARGB, the width and height of the input,
plane 0 stride width*4, and plane 0 points at scratch buffer 0, which has been
resized to exactly width*height*4 bytes. -/
theorem converter_run_argb_output (sys : allocator_t) (heap : Nat) (conv : converter_t)
    (input output : frame_info_t)
    (hfmt : supported_source input.pixel_format)
    (hstride : input.width * 4 < 4294967296)
    (hsize : input.width * input.height * 4 < 4294967296) :
    (converter_run sys heap conv input output PIXFMT_ARGB).status = 0 ∧
    (converter_run sys heap conv input output PIXFMT_ARGB).output.pixel_format = PIXFMT_ARGB ∧
    (converter_run sys heap conv input output PIXFMT_ARGB).output.width = input.width ∧
    (converter_run sys heap conv input output PIXFMT_ARGB).output.height = input.height ∧
    (converter_run sys heap conv input output PIXFMT_ARGB).output.planes0.stride
      = input.width * 4 ∧
    (converter_run sys heap conv input output PIXFMT_ARGB).output.planes0.buffer
      = (converter_run sys heap conv input output PIXFMT_ARGB).conv.buffers0.ptr ∧
    (converter_run sys heap conv input output PIXFMT_ARGB).conv.buffers0.size
      = input.width * input.height * 4 ∧
    call_t.realloc 0 (input.width * input.height * 4)
      ∈ (converter_run sys heap conv input output PIXFMT_ARGB).calls := by
  have hc := converter_run_argb_common sys heap conv input output
  simp only [u32_size0_of_lt _ _ hsize, u32_mul_of_lt _ _ hstride] at hc
  obtain ⟨h1, h2, h3, h4, h5, h6⟩ := hc
  have hs := converter_run_supported sys heap conv input output hfmt
  exact ⟨hs.1, hs.2, h1, h2, h3, h4, h5, h6⟩

/-- C1, amended, at a 4 x 4 RGB frame on a fresh converter: status 0 and a
scratch buffer 0 of 64 bytes. -/
theorem converter_run_argb_output_witness :
    supported_source (rgb_frame 4 4).pixel_format ∧
    (converter_run bump_alloc 0 converter_init (rgb_frame 4 4) frame_invalid
        PIXFMT_ARGB).status = 0 ∧
    (converter_run bump_alloc 0 converter_init (rgb_frame 4 4) frame_invalid
        PIXFMT_ARGB).conv.buffers0.size = (rgb_frame 4 4).width * (rgb_frame 4 4).height * 4 :=
  ⟨by decide,
   (converter_run_argb_output bump_alloc 0 converter_init (rgb_frame 4 4)
      frame_invalid (by decide) (by decide) (by decide)).1,
   (converter_run_argb_output bump_alloc 0 converter_init (rgb_frame 4 4)
      frame_invalid (by decide) (by decide) (by decide)).2.2.2.2.2.2.1⟩

/-- C2: the status of converter_run is decided by the format pair: it is 0
exactly when the target is ARGB and the source is RGB, ABGR,
YUV420_SEMI_PLANAR or YUV422_SEMI_PLANAR; it is -1 exactly when the target is
not ARGB, whatever the source; it is -2 exactly when the target is ARGB and the
source is any other format, INVALID included. -/
theorem converter_run_status (sys : allocator_t) (heap : Nat) (conv : converter_t)
    (input output : frame_info_t) (target_format : pixel_format_t) :
    ((converter_run sys heap conv input output target_format).status = 0 ↔
      (target_format = PIXFMT_ARGB ∧
        (input.pixel_format = PIXFMT_RGB ∨ input.pixel_format = PIXFMT_ABGR ∨
          input.pixel_format = PIXFMT_YUV420_SEMI_PLANAR ∨
          input.pixel_format = PIXFMT_YUV422_SEMI_PLANAR))) ∧
    ((converter_run sys heap conv input output target_format).status = -1 ↔
      target_format ≠ PIXFMT_ARGB) ∧
    ((converter_run sys heap conv input output target_format).status = -2 ↔
      (target_format = PIXFMT_ARGB ∧
        ¬ (input.pixel_format = PIXFMT_RGB ∨ input.pixel_format = PIXFMT_ABGR ∨
          input.pixel_format = PIXFMT_YUV420_SEMI_PLANAR ∨
          input.pixel_format = PIXFMT_YUV422_SEMI_PLANAR))) := by
  unfold converter_run
  by_cases ht : target_format = PIXFMT_ARGB
  · by_cases h1 : input.pixel_format = PIXFMT_RGB
    · simp [ht, h1]
    · by_cases h2 : input.pixel_format = PIXFMT_ABGR
      · simp [ht, h2]
      · by_cases h3 : input.pixel_format = PIXFMT_YUV420_SEMI_PLANAR
        · simp [ht, h3]
        · by_cases h4 : input.pixel_format = PIXFMT_YUV422_SEMI_PLANAR
          · simp [ht, h4]
          · simp [ht, h1, h2, h3, h4]
  · simp [ht]

/-- C3 as stated fails: a frame of format INVALID with target ARGB is rejected
with status -2, yet scratch buffer 0 of the fresh converter, NULL before the
call, is a block of 16 bytes after it. -/
theorem converter_run_reject_resizes_slot0 :
    (converter_run bump_alloc 0 converter_init
        { rgb_frame 2 2 with pixel_format := PIXFMT_INVALID } frame_invalid
        PIXFMT_ARGB).status = -2 ∧
    converter_init.buffers0 = ⟨0, 0⟩ ∧
    (converter_run bump_alloc 0 converter_init
        { rgb_frame 2 2 with pixel_format := PIXFMT_INVALID } frame_invalid
        PIXFMT_ARGB).conv.buffers0 = ⟨4096, 16⟩ ∧
    (converter_run bump_alloc 0 converter_init
        { rgb_frame 2 2 with pixel_format := PIXFMT_INVALID } frame_invalid
        PIXFMT_ARGB).conv ≠ converter_init := by
  decide

/-- C3, amended: for every converter state and every format pair that
converter_run rejects, scratch buffers 1, 2 and 3 are after the call what they
were before it (address and size) and none of them is passed to realloc; when
the target is not ARGB the same holds of all four buffers and no call is
made. -/
theorem converter_run_reject_frame (sys : allocator_t) (heap : Nat) (conv : converter_t)
    (input output : frame_info_t) (target_format : pixel_format_t)
    (hrej : (converter_run sys heap conv input output target_format).status ≠ 0) :
    (converter_run sys heap conv input output target_format).conv.buffers1 = conv.buffers1 ∧
    (converter_run sys heap conv input output target_format).conv.buffers2 = conv.buffers2 ∧
    (converter_run sys heap conv input output target_format).conv.buffers3 = conv.buffers3 ∧
    ¬ resized (converter_run sys heap conv input output target_format) 1 ∧
    ¬ resized (converter_run sys heap conv input output target_format) 2 ∧
    ¬ resized (converter_run sys heap conv input output target_format) 3 ∧
    (target_format ≠ PIXFMT_ARGB →
      (converter_run sys heap conv input output target_format).conv = conv ∧
      (converter_run sys heap conv input output target_format).calls = []) := by
  revert hrej
  unfold resized converter_run
  split_ifs <;> simp_all

/-- C3, amended, at a frame of format INVALID with target ARGB on a fresh
converter. -/
theorem converter_run_reject_frame_witness :
    (converter_run bump_alloc 0 converter_init
        { rgb_frame 2 2 with pixel_format := PIXFMT_INVALID } frame_invalid
        PIXFMT_ARGB).status ≠ 0 ∧
    (converter_run bump_alloc 0 converter_init
        { rgb_frame 2 2 with pixel_format := PIXFMT_INVALID } frame_invalid
        PIXFMT_ARGB).conv.buffers1 = converter_init.buffers1 :=
  ⟨by decide,
   (converter_run_reject_frame bump_alloc 0 converter_init
      { rgb_frame 2 2 with pixel_format := PIXFMT_INVALID } frame_invalid
      PIXFMT_ARGB (by decide)).1⟩

/-! ## Sequences of conversions -/

/-- The sizes of scratch buffer 0 after each call of a sequence. -/
theorem converter_run_seq_size0 (sys : allocator_t) (inputs : List frame_info_t) :
    ∀ (heap : Nat) (conv : converter_t),
    (converter_run_seq sys heap conv inputs).map (fun r => r.conv.buffers0.size)
      = inputs.map (fun f => u32_mul (u32_mul f.width f.height) 4) := by
  induction inputs with
  | nil => intro heap conv; rfl
  | cons f rest ih =>
    intro heap conv
    simp only [converter_run_seq, List.map_cons, ih]
    rw [(converter_run_argb_common sys heap conv f frame_invalid).2.2.2.2.1]

/-- The statuses of a sequence of calls on supported source formats. -/
theorem converter_run_seq_status (sys : allocator_t) (inputs : List frame_info_t) :
    ∀ (heap : Nat) (conv : converter_t),
    (∀ f ∈ inputs, supported_source f.pixel_format) →
    ∀ r ∈ converter_run_seq sys heap conv inputs, r.status = 0 := by
  induction inputs with
  | nil => intro heap conv _ r hr; simp [converter_run_seq] at hr
  | cons f rest ih =>
    intro heap conv hok r hr
    simp only [converter_run_seq, List.mem_cons] at hr
    rcases hr with hr | hr
    · rw [hr]
      exact (converter_run_supported sys heap conv f frame_invalid
        (hok f (List.mem_cons_self f rest))).1
    · exact ih _ _ (fun g hg => hok g (List.mem_cons_of_mem f hg)) r hr

/-- C8 as stated fails: a 4 x 4 RGB frame followed by a 2 x 2 RGB frame, both
converted with status 0 on one converter: scratch buffer 0 has 64 bytes after
the first call and 16 bytes after the second, less than the 64 bytes of the
largest frame converted so far. -/
theorem converter_run_seq_shrinks :
    (converter_run_seq bump_alloc 0 converter_init [rgb_frame 4 4, rgb_frame 2 2]).map
      (fun r => (r.status, r.conv.buffers0.size)) = [(0, 64), (0, 16)] ∧
    argb_bytes (rgb_frame 4 4) = 64 ∧ 16 < 64 := by
  decide

/-- C8, amended: for every sequence of successful converter_run calls on one
converter instance with frame sizes width*height*4 below 2^32, the size of
scratch buffer 0 after each call is exactly width*height*4 of the frame of
that call; so, when the frame sizes do not decrease from one call to a later
one, the size after each call is at least width*height*4 of the largest frame
converted so far, and the sizes do not decrease over the sequence. -/
theorem converter_run_seq_sizes (sys : allocator_t) (heap : Nat) (conv : converter_t)
    (inputs : List frame_info_t)
    (hfmt : ∀ f ∈ inputs, supported_source f.pixel_format)
    (hsize : ∀ f ∈ inputs, argb_bytes f < 4294967296) :
    (∀ r ∈ converter_run_seq sys heap conv inputs, r.status = 0) ∧
    (converter_run_seq sys heap conv inputs).map (fun r => r.conv.buffers0.size)
      = inputs.map argb_bytes ∧
    (inputs.Pairwise (fun a b => argb_bytes a ≤ argb_bytes b) →
      ((converter_run_seq sys heap conv inputs).map (fun r => r.conv.buffers0.size)).Pairwise
        (fun a b => a ≤ b) ∧
      (∀ pre f post, inputs = pre ++ f :: post → ∀ g ∈ pre ++ [f],
        argb_bytes g ≤
          ((converter_run_seq sys heap conv inputs).map
            (fun r => r.conv.buffers0.size)).getD pre.length 0)) := by
  have hs : (converter_run_seq sys heap conv inputs).map (fun r => r.conv.buffers0.size)
      = inputs.map argb_bytes := by
    rw [converter_run_seq_size0]
    apply List.map_congr_left
    intro f hf
    exact u32_size0_of_lt f.width f.height (hsize f hf)
  refine ⟨converter_run_seq_status sys inputs heap conv hfmt, hs, ?_⟩
  intro hmono
  constructor
  · rw [hs, List.pairwise_map]
    exact hmono
  · intro pre f post hin g hg
    rw [hs, hin]
    simp only [List.map_append, List.map_cons]
    rw [List.getD_append_right _ _ _ _ (by simp)]
    simp only [List.length_map, Nat.sub_self, List.getD_cons_zero]
    rw [hin, List.pairwise_append] at hmono
    simp only [List.mem_append, List.mem_singleton] at hg
    rcases hg with hg | hg
    · exact hmono.2.2 g hg f (List.mem_cons_self f post)
    · rw [hg]

/-- C8, amended, at a 2 x 2 RGB frame followed by a 4 x 4 RGB frame on a fresh
converter: scratch buffer 0 has 16 and then 64 bytes. -/
theorem converter_run_seq_sizes_witness :
    (∀ f ∈ [rgb_frame 2 2, rgb_frame 4 4], supported_source f.pixel_format) ∧
    (∀ f ∈ [rgb_frame 2 2, rgb_frame 4 4], argb_bytes f < 4294967296) ∧
    (converter_run_seq bump_alloc 0 converter_init [rgb_frame 2 2, rgb_frame 4 4]).map
      (fun r => r.conv.buffers0.size) = [rgb_frame 2 2, rgb_frame 4 4].map argb_bytes ∧
    ((converter_run_seq bump_alloc 0 converter_init [rgb_frame 2 2, rgb_frame 4 4]).map
      (fun r => r.conv.buffers0.size)).Pairwise (fun a b => a ≤ b) :=
  ⟨by decide, by decide,
   (converter_run_seq_sizes bump_alloc 0 converter_init [rgb_frame 2 2, rgb_frame 4 4]
      (by decide) (by decide)).2.1,
   ((converter_run_seq_sizes bump_alloc 0 converter_init [rgb_frame 2 2, rgb_frame 4 4]
      (by decide) (by decide)).2.2 (by decide)).1⟩

/-! ## The chroma scratch buffers -/

/-- C10 as stated fails: a 131072 x 65536 YUV422 semi-planar frame is converted
with status 0, but scratch buffers 1 and 2 are resized to 0 bytes, not to
(131072/2)*65536 bytes: the size is computed in 32 bits. -/
theorem converter_run_chroma_wraps :
    (converter_run bump_alloc 0 converter_init
        { rgb_frame 131072 65536 with pixel_format := PIXFMT_YUV422_SEMI_PLANAR }
        frame_invalid PIXFMT_ARGB).status = 0 ∧
    (converter_run bump_alloc 0 converter_init
        { rgb_frame 131072 65536 with pixel_format := PIXFMT_YUV422_SEMI_PLANAR }
        frame_invalid PIXFMT_ARGB).conv.buffers1.size = 0 ∧
    (converter_run bump_alloc 0 converter_init
        { rgb_frame 131072 65536 with pixel_format := PIXFMT_YUV422_SEMI_PLANAR }
        frame_invalid PIXFMT_ARGB).conv.buffers1.size ≠ (131072 / 2) * 65536 ∧
    (converter_run bump_alloc 0 converter_init
        { rgb_frame 131072 65536 with pixel_format := PIXFMT_YUV422_SEMI_PLANAR }
        frame_invalid PIXFMT_ARGB).conv.buffers2.size ≠ (131072 / 2) * 65536 := by
  decide

/-- C10, amended: for every converter_run call, scratch buffers 1 and 2 are
passed to realloc if and only if the target is ARGB and the source format is
YUV422_SEMI_PLANAR; in that case each is resized to (width/2)*height bytes,
the product being taken in 32 bits (so to exactly (width/2)*height bytes when
that is below 2^32); for every other input buffers 1 and 2 are left exactly as
they were; scratch buffer 3 is never passed to realloc and never changed. -/
theorem converter_run_chroma_frame (sys : allocator_t) (heap : Nat) (conv : converter_t)
    (input output : frame_info_t) (target_format : pixel_format_t) :
    (resized (converter_run sys heap conv input output target_format) 1 ↔
      (target_format = PIXFMT_ARGB ∧ input.pixel_format = PIXFMT_YUV422_SEMI_PLANAR)) ∧
    (resized (converter_run sys heap conv input output target_format) 2 ↔
      (target_format = PIXFMT_ARGB ∧ input.pixel_format = PIXFMT_YUV422_SEMI_PLANAR)) ∧
    ((target_format = PIXFMT_ARGB ∧ input.pixel_format = PIXFMT_YUV422_SEMI_PLANAR) →
      (converter_run sys heap conv input output target_format).conv.buffers1.size
        = u32_mul (input.width / 2) input.height ∧
      (converter_run sys heap conv input output target_format).conv.buffers2.size
        = u32_mul (input.width / 2) input.height ∧
      ((input.width / 2) * input.height < 4294967296 →
        (converter_run sys heap conv input output target_format).conv.buffers1.size
          = (input.width / 2) * input.height ∧
        (converter_run sys heap conv input output target_format).conv.buffers2.size
          = (input.width / 2) * input.height)) ∧
    (¬ (target_format = PIXFMT_ARGB ∧ input.pixel_format = PIXFMT_YUV422_SEMI_PLANAR) →
      (converter_run sys heap conv input output target_format).conv.buffers1 = conv.buffers1 ∧
      (converter_run sys heap conv input output target_format).conv.buffers2 = conv.buffers2) ∧
    ¬ resized (converter_run sys heap conv input output target_format) 3 ∧
    (converter_run sys heap conv input output target_format).conv.buffers3 = conv.buffers3 := by
  unfold resized converter_run
  split_ifs with h1 h2 h3 h4 h5 <;>
    simp_all [realloc, u32_mul, Nat.mod_eq_of_lt]

/-- C10, amended, at a 4 x 4 YUV422 semi-planar frame on a fresh converter:
scratch buffers 1 and 2 are resized to 8 bytes. -/
theorem converter_run_chroma_frame_witness :
    (4 / 2) * 4 < 4294967296 ∧
    (converter_run bump_alloc 0 converter_init
        { rgb_frame 4 4 with pixel_format := PIXFMT_YUV422_SEMI_PLANAR }
        frame_invalid PIXFMT_ARGB).conv.buffers1.size = (4 / 2) * 4 ∧
    (converter_run bump_alloc 0 converter_init
        { rgb_frame 4 4 with pixel_format := PIXFMT_YUV422_SEMI_PLANAR }
        frame_invalid PIXFMT_ARGB).conv.buffers2.size = (4 / 2) * 4 :=
  ⟨by decide,
   ((converter_run_chroma_frame bump_alloc 0 converter_init
      { rgb_frame 4 4 with pixel_format := PIXFMT_YUV422_SEMI_PLANAR }
      frame_invalid PIXFMT_ARGB).2.2.1 ⟨rfl, rfl⟩).2.2 (by decide)⟩

/-! ## The loader -/

/-- The status of unicapture_init_backend is 0 exactly when the candidate loads
and initialises. -/
theorem init_backend_status_zero_iff (dl : dl_t) (config : cap_backend_config_t)
    (backend : capture_backend_t) (name : String) :
    (unicapture_init_backend dl config backend name).status = 0 ↔
      candidate_ok dl config name := by
  unfold unicapture_init_backend candidate_ok exports_all
  cases hm : dl name with
  | none => simp
  | some m =>
    obtain ⟨i, c, s, t, a, r, w⟩ := m
    cases i
    · simp
    cases c
    · simp
    cases s
    · simp
    cases t
    · simp
    cases a
    · simp
    cases r
    · simp
    cases w
    · simp
    rename_i f _ _ _ _ _ _
    by_cases h0 : (f config).1 = 0 <;> simp [h0]

/-- A candidate that loads and initialises leaves its own handle in the
backend, whatever the backend held before, after one dlopen and one
capture_init. -/
theorem init_backend_ok (dl : dl_t) (config : cap_backend_config_t)
    (backend : capture_backend_t) (name : String) (m : module_t) (f : init_fn)
    (hm : dl name = some m) (hall : exports_all m) (hf : m.capture_init = some f)
    (h0 : (f config).1 = 0) :
    (unicapture_init_backend dl config backend name).backend = handle_of config name m f ∧
    (unicapture_init_backend dl config backend name).calls
      = [load_call_t.dlopen name, load_call_t.capture_init name] := by
  unfold unicapture_init_backend handle_of
  unfold exports_all at hall
  obtain ⟨i, c, s, t, a, r, w⟩ := m
  obtain ⟨_, h2, h3, h4, h5, h6, h7⟩ := hall
  simp only at hf h2 h3 h4 h5 h6 h7
  subst hf
  obtain ⟨c, rfl⟩ := Option.isSome_iff_exists.mp h2
  obtain ⟨s, rfl⟩ := Option.isSome_iff_exists.mp h3
  obtain ⟨t, rfl⟩ := Option.isSome_iff_exists.mp h4
  obtain ⟨a, rfl⟩ := Option.isSome_iff_exists.mp h5
  obtain ⟨r, rfl⟩ := Option.isSome_iff_exists.mp h6
  obtain ⟨w, rfl⟩ := Option.isSome_iff_exists.mp h7
  simp [hm, h0]

/-- Each call of unicapture_init_backend passes its name to dlopen once. -/
theorem init_backend_attempts (dl : dl_t) (config : cap_backend_config_t)
    (backend : capture_backend_t) (name : String) :
    attempts (unicapture_init_backend dl config backend name).calls = [name] := by
  unfold unicapture_init_backend
  cases hm : dl name with
  | none => simp [attempts]
  | some m =>
    obtain ⟨i, c, s, t, a, r, w⟩ := m
    cases i
    · simp [attempts]
    cases c
    · simp [attempts]
    cases s
    · simp [attempts]
    cases t
    · simp [attempts]
    cases a
    · simp [attempts]
    cases r
    · simp [attempts]
    cases w
    · simp [attempts]
    simp only
    split_ifs <;> simp [attempts]

theorem attempts_append (xs ys : List load_call_t) :
    attempts (xs ++ ys) = attempts xs ++ attempts ys := by
  induction xs with
  | nil => rfl
  | cons x rest ih => cases x <;> simp [attempts, ih]

/-- C9: when the module resolves but one of the seven symbols capture_init,
capture_cleanup, capture_start, capture_terminate, capture_acquire_frame,
capture_release_frame, capture_wait is absent, unicapture_init_backend returns
-2 and does not call capture_init; when the module resolves and all seven
symbols bind, it calls capture_init exactly once and returns its status
unchanged, and the name of the backend is set when that status is 0 and left
as it was otherwise. -/
theorem unicapture_init_backend_symbols (dl : dl_t) (config : cap_backend_config_t)
    (backend : capture_backend_t) (name : String) (m : module_t)
    (hm : dl name = some m) :
    ((m.capture_init = none ∨ m.capture_cleanup = none ∨ m.capture_start = none ∨
        m.capture_terminate = none ∨ m.capture_acquire_frame = none ∨
        m.capture_release_frame = none ∨ m.capture_wait = none) →
      (unicapture_init_backend dl config backend name).status = -2 ∧
      init_calls (unicapture_init_backend dl config backend name).calls = 0) ∧
    (∀ f_init f_cleanup f_start f_terminate f_acquire f_release f_wait,
      m.capture_init = some f_init → m.capture_cleanup = some f_cleanup →
      m.capture_start = some f_start → m.capture_terminate = some f_terminate →
      m.capture_acquire_frame = some f_acquire → m.capture_release_frame = some f_release →
      m.capture_wait = some f_wait →
      (unicapture_init_backend dl config backend name).status = (f_init config).1 ∧
      (unicapture_init_backend dl config backend name).calls
        = [load_call_t.dlopen name, load_call_t.capture_init name] ∧
      init_calls (unicapture_init_backend dl config backend name).calls = 1 ∧
      ((f_init config).1 = 0 →
        (unicapture_init_backend dl config backend name).backend.name = some name) ∧
      ((f_init config).1 ≠ 0 →
        (unicapture_init_backend dl config backend name).backend.name = backend.name)) := by
  unfold unicapture_init_backend
  obtain ⟨i, c, s, t, a, r, w⟩ := m
  constructor
  · intro habs
    simp only at habs
    cases i
    · simp [hm, init_calls]
    cases c
    · simp [hm, init_calls]
    cases s
    · simp [hm, init_calls]
    cases t
    · simp [hm, init_calls]
    cases a
    · simp [hm, init_calls]
    cases r
    · simp [hm, init_calls]
    cases w
    · simp [hm, init_calls]
    simp at habs
  · intro f_init f_cleanup f_start f_terminate f_acquire f_release f_wait h1 h2 h3 h4 h5 h6 h7
    simp only at h1 h2 h3 h4 h5 h6 h7
    subst h1 h2 h3 h4 h5 h6 h7
    by_cases h0 : (f_init config).1 = 0 <;> simp [hm, h0, init_calls]

/-- C9 at the example linker: libb.so lacks capture_wait and gives -2 without a
call of capture_init. -/
theorem unicapture_init_backend_symbols_witness :
    example_dl "libb.so" = some example_module_no_wait ∧
    (unicapture_init_backend example_dl example_config backend_unbound "libb.so").status
      = -2 ∧
    init_calls
      (unicapture_init_backend example_dl example_config backend_unbound "libb.so").calls
      = 0 :=
  ⟨by simp [example_dl],
   (unicapture_init_backend_symbols example_dl example_config backend_unbound "libb.so"
      example_module_no_wait (by simp [example_dl])).1
      (Or.inr (Or.inr (Or.inr (Or.inr (Or.inr (Or.inr rfl))))))⟩

/-- The status of unicapture_try_backends is 0 exactly when some candidate of the
list loads and initialises. -/
theorem try_backends_status_zero_iff (dl : dl_t) (config : cap_backend_config_t)
    (candidates : List String) :
    ∀ backend : capture_backend_t,
    (unicapture_try_backends dl config backend candidates).status = 0 ↔
      ∃ c ∈ candidates, candidate_ok dl config c := by
  induction candidates with
  | nil => intro backend; simp [unicapture_try_backends]
  | cons name rest ih =>
    intro backend
    unfold unicapture_try_backends
    by_cases h0 : (unicapture_init_backend dl config backend name).status = 0
    · simp only [h0, if_true, true_iff]
      exact ⟨name, List.mem_cons_self name rest,
        (init_backend_status_zero_iff dl config backend name).mp h0⟩
    · simp only [h0, if_false, ih, List.mem_cons]
      have hno : ¬ candidate_ok dl config name :=
        fun hok => h0 ((init_backend_status_zero_iff dl config backend name).mpr hok)
      constructor
      · rintro ⟨c, hc, hok⟩
        exact ⟨c, Or.inr hc, hok⟩
      · rintro ⟨c, hc | hc, hok⟩
        · exact absurd (hc ▸ hok) hno
        · exact ⟨c, hc, hok⟩

/-- When no candidate loads and initialises, unicapture_try_backends returns -1
after passing every candidate to dlopen once, in order. -/
theorem try_backends_none_ok (dl : dl_t) (config : cap_backend_config_t)
    (candidates : List String) :
    ∀ backend : capture_backend_t,
    (∀ c ∈ candidates, ¬ candidate_ok dl config c) →
    (unicapture_try_backends dl config backend candidates).status = -1 ∧
    attempts (unicapture_try_backends dl config backend candidates).calls = candidates := by
  induction candidates with
  | nil => intro backend _; simp [unicapture_try_backends, attempts]
  | cons name rest ih =>
    intro backend hall
    have h0 : ¬ (unicapture_init_backend dl config backend name).status = 0 :=
      fun h => hall name (List.mem_cons_self name rest)
        ((init_backend_status_zero_iff dl config backend name).mp h)
    have hrest := ih (unicapture_init_backend dl config backend name).backend
      (fun c hc => hall c (List.mem_cons_of_mem name hc))
    unfold unicapture_try_backends
    simp only [h0, if_false, attempts_append, init_backend_attempts, hrest.1, hrest.2]
    simp

/-- The first candidate that loads and initialises ends the search: the status
is 0, the backend is its handle, and dlopen has been called on the candidates
up to it, once each, in order. -/
theorem try_backends_first_ok (dl : dl_t) (config : cap_backend_config_t)
    (pre : List String) (c : String) (post : List String) (m : module_t) (f : init_fn)
    (hm : dl c = some m) (hall : exports_all m) (hf : m.capture_init = some f)
    (h0 : (f config).1 = 0) :
    ∀ backend : capture_backend_t,
    (∀ x ∈ pre, ¬ candidate_ok dl config x) →
    (unicapture_try_backends dl config backend (pre ++ c :: post)).status = 0 ∧
    (unicapture_try_backends dl config backend (pre ++ c :: post)).backend
      = handle_of config c m f ∧
    attempts (unicapture_try_backends dl config backend (pre ++ c :: post)).calls
      = pre ++ [c] := by
  induction pre with
  | nil =>
    intro backend _
    have hok : (unicapture_init_backend dl config backend c).status = 0 :=
      (init_backend_status_zero_iff dl config backend c).mpr ⟨m, f, hm, hall, hf, h0⟩
    have hb := init_backend_ok dl config backend c m f hm hall hf h0
    simp only [List.nil_append]
    unfold unicapture_try_backends
    simp only [hok, if_true, hb.1, init_backend_attempts]
    simp
  | cons name rest ih =>
    intro backend hpre
    have hno : ¬ (unicapture_init_backend dl config backend name).status = 0 :=
      fun h => hpre name (List.mem_cons_self name rest)
        ((init_backend_status_zero_iff dl config backend name).mp h)
    have hrest := ih (unicapture_init_backend dl config backend name).backend
      (fun x hx => hpre x (List.mem_cons_of_mem name hx))
    simp only [List.cons_append]
    unfold unicapture_try_backends
    simp only [hno, if_false, attempts_append, init_backend_attempts, hrest.1, hrest.2.1,
      hrest.2.2]
    simp

/-- C4: for every ordered candidate list and every assignment of load and init
outcomes to the candidates, unicapture_try_backends returns 0 if and only if
at least one candidate loads and initialises; then the backend handle is the
one of the first such candidate in list order, every candidate before it has
been attempted exactly once and none after it; if no candidate succeeds (the
empty list included) it returns -1 after attempting each candidate once, in
order. -/
theorem unicapture_try_backends_first (dl : dl_t) (config : cap_backend_config_t)
    (backend : capture_backend_t) (candidates : List String) :
    ((unicapture_try_backends dl config backend candidates).status = 0 ↔
      ∃ c ∈ candidates, candidate_ok dl config c) ∧
    (∀ pre c post m f, candidates = pre ++ c :: post →
      (∀ x ∈ pre, ¬ candidate_ok dl config x) →
      dl c = some m → exports_all m → m.capture_init = some f → (f config).1 = 0 →
      (unicapture_try_backends dl config backend candidates).status = 0 ∧
      (unicapture_try_backends dl config backend candidates).backend
        = handle_of config c m f ∧
      attempts (unicapture_try_backends dl config backend candidates).calls = pre ++ [c]) ∧
    ((∀ c ∈ candidates, ¬ candidate_ok dl config c) →
      (unicapture_try_backends dl config backend candidates).status = -1 ∧
      attempts (unicapture_try_backends dl config backend candidates).calls
        = candidates) := by
  refine ⟨try_backends_status_zero_iff dl config candidates backend, ?_,
    try_backends_none_ok dl config candidates backend⟩
  intro pre c post m f hc hpre hm hall hf h0
  rw [hc]
  exact try_backends_first_ok dl config pre c post m f hm hall hf h0 backend hpre

/-- C4 at the example linker and the candidates liba.so, libb.so, libc.so,
libd.so, libe.so: the first three fail, libd.so is loaded, libe.so is not
attempted. -/
theorem unicapture_try_backends_first_witness :
    (unicapture_try_backends example_dl example_config backend_unbound
      ["liba.so", "libb.so", "libc.so", "libd.so", "libe.so"]).status = 0 ∧
    (unicapture_try_backends example_dl example_config backend_unbound
      ["liba.so", "libb.so", "libc.so", "libd.so", "libe.so"]).backend
      = handle_of example_config "libd.so" (example_module 0 0 (rgb_frame 2 2))
          (fun _ => (0, 7)) ∧
    attempts (unicapture_try_backends example_dl example_config backend_unbound
      ["liba.so", "libb.so", "libc.so", "libd.so", "libe.so"]).calls
      = ["liba.so", "libb.so", "libc.so", "libd.so"] :=
  (unicapture_try_backends_first example_dl example_config backend_unbound
    ["liba.so", "libb.so", "libc.so", "libd.so", "libe.so"]).2.1
    ["liba.so", "libb.so", "libc.so"] "libd.so" ["libe.so"]
    (example_module 0 0 (rgb_frame 2 2)) (fun _ => (0, 7)) rfl
    (by
      intro x hx
      simp only [List.mem_cons, List.mem_singleton, List.not_mem_nil, or_false] at hx
      rcases hx with rfl | rfl | rfl <;>
        simp [candidate_ok, example_dl, exports_all, example_module_no_wait, example_module])
    (by simp [example_dl])
    (by simp [exports_all, example_module])
    rfl rfl

/-! ## The stages of one iteration -/

theorem release_count_append (s : stream_t) (xs ys : List event_t) :
    release_count s (xs ++ ys) = release_count s xs + release_count s ys := by
  induction xs with
  | nil => simp [release_count]
  | cons x rest ih =>
    cases x <;> simp [release_count, ih]
    split_ifs <;> omega

theorem blend_count_append (xs ys : List event_t) :
    blend_count (xs ++ ys) = blend_count xs + blend_count ys := by
  induction xs with
  | nil => simp [blend_count]
  | cons x rest ih =>
    cases x <;> simp [blend_count, ih]
    omega

/-- The acquire stage completes on a backend whose function pointers are
bound. -/
theorem tick_acquire_isSome (s : stream_t) (capture : Option capture_backend_t)
    (h : capture_bound capture) : (tick_acquire s capture).isSome := by
  cases capture with
  | none => rfl
  | some b =>
    obtain ⟨f, hf⟩ := Option.isSome_iff_exists.mp (h b rfl).1
    simp only [tick_acquire, hf]
    split_ifs <;> rfl

/-- The acquire stage keeps a bound backend bound, and a frame that is not
INVALID comes from a backend that is present. -/
theorem tick_acquire_bound (s : stream_t) (capture : Option capture_backend_t)
    (a : acquire_t) (h : tick_acquire s capture = some a) (hb : capture_bound capture) :
    capture_bound a.capture ∧
    (a.frame.pixel_format ≠ PIXFMT_INVALID → ∃ b, a.capture = some b) := by
  cases capture with
  | none =>
    simp only [tick_acquire, Option.some.injEq] at h
    subst h
    exact ⟨hb, fun hne => absurd rfl hne⟩
  | some b =>
    obtain ⟨ha, hr⟩ := hb b rfl
    cases hf : b.acquire_frame with
    | none => simp [tick_acquire, hf] at h
    | some f =>
      simp only [tick_acquire, hf] at h
      split_ifs at h <;>
        (simp only [Option.some.injEq] at h
         subst h
         refine ⟨?_, fun _ => ⟨_, rfl⟩⟩
         intro b1 hb1
         cases hb1
         exact ⟨by simp [hf], hr⟩)

/-- The calls of the acquire stage: none, or one acquire_frame. -/
theorem tick_acquire_events (s : stream_t) (capture : Option capture_backend_t)
    (a : acquire_t) (h : tick_acquire s capture = some a) :
    a.events = [] ∨ ∃ ret, a.events = [event_t.acquire_frame s ret] := by
  cases capture with
  | none =>
    simp only [tick_acquire, Option.some.injEq] at h
    subst h
    exact Or.inl rfl
  | some b =>
    cases hf : b.acquire_frame with
    | none => simp [tick_acquire, hf] at h
    | some f =>
      simp only [tick_acquire, hf] at h
      split_ifs at h <;>
        (simp only [Option.some.injEq] at h; subst h; exact Or.inr ⟨_, rfl⟩)

/-- The frame the acquire stage leaves for a backend that is absent. -/
theorem tick_acquire_absent (s : stream_t) (a : acquire_t)
    (h : tick_acquire s none = some a) : a.frame = frame_invalid := by
  simp only [tick_acquire, Option.some.injEq] at h
  subst h
  rfl

/-- The frame the acquire stage leaves for a backend that is present: it is not
INVALID exactly when acquire_frame returned 0 and handed back a frame that is
not INVALID, and then it is that frame. -/
theorem tick_acquire_present (s : stream_t) (b : capture_backend_t) (f : acquire_fn)
    (hf : b.acquire_frame = some f) (a : acquire_t)
    (h : tick_acquire s (some b) = some a) :
    (a.frame.pixel_format ≠ PIXFMT_INVALID ↔
      ((f b.state frame_invalid).1 = 0 ∧
        (f b.state frame_invalid).2.1.pixel_format ≠ PIXFMT_INVALID)) ∧
    ((f b.state frame_invalid).1 = 0 → a.frame = (f b.state frame_invalid).2.1) ∧
    a.events = [event_t.acquire_frame s (f b.state frame_invalid).1] := by
  simp only [tick_acquire, hf] at h
  split_ifs at h with h0 <;> (simp only [Option.some.injEq] at h; subst h)
  · simp [h0]
  · simp only [ne_eq, not_not] at h0
    simp [h0]

/-- The release stage completes on a bound backend. -/
theorem tick_release_isSome (s : stream_t) (capture : Option capture_backend_t)
    (frame : frame_info_t) (h : capture_bound capture)
    (hp : frame.pixel_format ≠ PIXFMT_INVALID → ∃ b, capture = some b) :
    (tick_release s capture frame).isSome := by
  by_cases hv : frame.pixel_format ≠ PIXFMT_INVALID
  · obtain ⟨b, rfl⟩ := hp hv
    obtain ⟨f, hf⟩ := Option.isSome_iff_exists.mp (h b rfl).2
    unfold tick_release
    rw [if_pos hv]
    simp only [hf]
    rfl
  · unfold tick_release
    rw [if_neg hv]
    rfl

/-- The release stage keeps a bound backend bound and calls release_frame once,
with the acquired frame, exactly when that frame is not INVALID. -/
theorem tick_release_events (s : stream_t) (capture : Option capture_backend_t)
    (frame : frame_info_t) (r : release_t) (h : tick_release s capture frame = some r)
    (hb : capture_bound capture) :
    capture_bound r.capture ∧
    r.events = (if frame.pixel_format ≠ PIXFMT_INVALID
      then [event_t.release_frame s frame] else []) := by
  by_cases hv : frame.pixel_format ≠ PIXFMT_INVALID
  · unfold tick_release at h
    rw [if_pos hv] at h
    rw [if_pos hv]
    cases capture with
    | none => simp at h
    | some b =>
      obtain ⟨ha, hr⟩ := hb b rfl
      cases hf : b.release_frame with
      | none => simp [hf] at h
      | some f =>
        simp only [hf, Option.some.injEq] at h
        subst h
        refine ⟨?_, rfl⟩
        intro b1 hb1
        cases hb1
        exact ⟨ha, by simp⟩
  · unfold tick_release at h
    rw [if_neg hv] at h
    rw [if_neg hv]
    simp only [Option.some.injEq] at h
    subst h
    exact ⟨hb, rfl⟩

/-- The calls of the convert stage: none when the frame is INVALID, else one
converter_run with target ARGB; a non-zero status leaves the converted frame
INVALID. -/
theorem tick_convert_events (sys : allocator_t) (s : stream_t) (heap : Nat)
    (conv : converter_t) (frame : frame_info_t) :
    ((tick_convert sys s heap conv frame).events = [] ∧
      (tick_convert sys s heap conv frame).frame_converted = frame_invalid) ∨
    (frame.pixel_format ≠ PIXFMT_INVALID ∧
      (tick_convert sys s heap conv frame).events
        = [event_t.converter_run s
            (converter_run sys heap conv frame frame_invalid PIXFMT_ARGB).status
            (converter_run sys heap conv frame frame_invalid PIXFMT_ARGB).calls] ∧
      ((converter_run sys heap conv frame frame_invalid PIXFMT_ARGB).status ≠ 0 →
        (tick_convert sys s heap conv frame).frame_converted.pixel_format
          = PIXFMT_INVALID)) := by
  by_cases hv : frame.pixel_format ≠ PIXFMT_INVALID
  · refine Or.inr ⟨hv, by rw [tick_convert, if_pos hv], ?_⟩
    intro hne
    rw [tick_convert, if_pos hv]
    rcases converter_run_argb_status sys heap conv frame frame_invalid with h | h
    · exact absurd h.1 hne
    · exact (converter_run_unsupported sys heap conv frame frame_invalid h.2).2
  · refine Or.inl ?_
    rw [tick_convert, if_neg hv]
    exact ⟨rfl, rfl⟩

/-- The composite stage calls ARGBBlend once when both converted frames are
valid and not at all otherwise; when one of them is INVALID it leaves the two
output buffers untouched.  It makes no backend call. -/
theorem tick_composite_events (sys : allocator_t) (heap : Nat)
    (blended_frame final_frame : buffer_t) (ui_c video_c : frame_info_t) :
    (∀ s, release_count s
      (tick_composite sys heap blended_frame final_frame ui_c video_c).events = 0) ∧
    (∀ s status calls, event_t.converter_run s status calls ∉
      (tick_composite sys heap blended_frame final_frame ui_c video_c).events) ∧
    (blend_count (tick_composite sys heap blended_frame final_frame ui_c video_c).events
      = if video_c.pixel_format ≠ PIXFMT_INVALID ∧ ui_c.pixel_format ≠ PIXFMT_INVALID
        then 1 else 0) ∧
    ((video_c.pixel_format = PIXFMT_INVALID ∨ ui_c.pixel_format = PIXFMT_INVALID) →
      (tick_composite sys heap blended_frame final_frame ui_c video_c).blended_frame
        = blended_frame ∧
      (tick_composite sys heap blended_frame final_frame ui_c video_c).final_frame
        = final_frame) := by
  unfold tick_composite
  by_cases hv : video_c.pixel_format = PIXFMT_INVALID <;>
    by_cases hu : ui_c.pixel_format = PIXFMT_INVALID <;>
    simp [hv, hu, blend_count, release_count]

/-! ## One iteration, and the loop -/

/-- The acquire stage calls neither release_frame nor ARGBBlend. -/
theorem tick_acquire_counts (s : stream_t) (capture : Option capture_backend_t)
    (a : acquire_t) (h : tick_acquire s capture = some a) :
    (∀ s1, release_count s1 a.events = 0) ∧ blend_count a.events = 0 := by
  rcases tick_acquire_events s capture a h with he | ⟨ret, he⟩ <;>
    simp [he, release_count, blend_count]

/-- The convert stage calls neither release_frame nor ARGBBlend. -/
theorem tick_convert_counts (sys : allocator_t) (s : stream_t) (heap : Nat)
    (conv : converter_t) (frame : frame_info_t) :
    (∀ s1, release_count s1 (tick_convert sys s heap conv frame).events = 0) ∧
    blend_count (tick_convert sys s heap conv frame).events = 0 := by
  unfold tick_convert
  split_ifs <;> simp [release_count, blend_count]

/-- With bound backends an iteration completes; what it leaves behind, stage by
stage. -/
theorem unicapture_run_tick_stages (sys : allocator_t) (st : run_t)
    (hui : capture_bound st.ui_capture) (hvideo : capture_bound st.video_capture) :
    ∃ ui video ui_r video_r st1 t,
      tick_acquire stream_t.ui st.ui_capture = some ui ∧
      tick_acquire stream_t.video st.video_capture = some video ∧
      tick_release stream_t.ui ui.capture ui.frame = some ui_r ∧
      tick_release stream_t.video video.capture video.frame = some video_r ∧
      unicapture_run_tick sys st = some (st1, t) ∧
      st1.ui_capture = ui_r.capture ∧ st1.video_capture = video_r.capture ∧
      t.ui_frame = ui.frame ∧ t.video_frame = video.frame ∧
      t.ui_frame_converted
        = (tick_convert sys stream_t.ui st.heap st.ui_converter ui.frame).frame_converted ∧
      t.video_frame_converted
        = (tick_convert sys stream_t.video
            (tick_convert sys stream_t.ui st.heap st.ui_converter ui.frame).heap
            st.video_converter video.frame).frame_converted ∧
      st1.blended_frame
        = (tick_composite sys
            (tick_convert sys stream_t.video
              (tick_convert sys stream_t.ui st.heap st.ui_converter ui.frame).heap
              st.video_converter video.frame).heap
            st.blended_frame st.final_frame t.ui_frame_converted
            t.video_frame_converted).blended_frame ∧
      st1.final_frame
        = (tick_composite sys
            (tick_convert sys stream_t.video
              (tick_convert sys stream_t.ui st.heap st.ui_converter ui.frame).heap
              st.video_converter video.frame).heap
            st.blended_frame st.final_frame t.ui_frame_converted
            t.video_frame_converted).final_frame ∧
      t.events = ui.events ++ video.events ++
        (tick_convert sys stream_t.ui st.heap st.ui_converter ui.frame).events ++
        (tick_convert sys stream_t.video
          (tick_convert sys stream_t.ui st.heap st.ui_converter ui.frame).heap
          st.video_converter video.frame).events ++
        (tick_composite sys
          (tick_convert sys stream_t.video
            (tick_convert sys stream_t.ui st.heap st.ui_converter ui.frame).heap
            st.video_converter video.frame).heap
          st.blended_frame st.final_frame t.ui_frame_converted
          t.video_frame_converted).events ++
        ui_r.events ++ video_r.events := by
  obtain ⟨ui, h1⟩ := Option.isSome_iff_exists.mp
    (tick_acquire_isSome stream_t.ui st.ui_capture hui)
  obtain ⟨video, h2⟩ := Option.isSome_iff_exists.mp
    (tick_acquire_isSome stream_t.video st.video_capture hvideo)
  have hbu := tick_acquire_bound _ _ _ h1 hui
  have hbv := tick_acquire_bound _ _ _ h2 hvideo
  obtain ⟨ui_r, h3⟩ := Option.isSome_iff_exists.mp
    (tick_release_isSome stream_t.ui ui.capture ui.frame hbu.1 hbu.2)
  obtain ⟨video_r, h4⟩ := Option.isSome_iff_exists.mp
    (tick_release_isSome stream_t.video video.capture video.frame hbv.1 hbv.2)
  cases hres : unicapture_run_tick sys st with
  | none => simp [unicapture_run_tick, h1, h2, h3, h4] at hres
  | some res =>
    simp only [unicapture_run_tick, h1, h2, h3, h4, Option.some_bind,
      Option.some.injEq] at hres
    subst hres
    exact ⟨ui, video, ui_r, video_r, _, _, h1, h2, h3, h4, rfl, rfl, rfl, rfl, rfl, rfl, rfl,
      rfl, rfl, rfl⟩

/-- With bound backends an iteration completes and leaves the backends bound;
release_frame is called on a stream once exactly when its acquired frame is
not INVALID, and then with that frame; converter_run is called on a stream
only when its acquired frame is not INVALID, and a non-zero status leaves the
converted frame INVALID; ARGBBlend is called once when both converted frames
are valid and not at all otherwise, and then the output buffers are
untouched. -/
theorem unicapture_run_tick_calls (sys : allocator_t) (st : run_t)
    (hui : capture_bound st.ui_capture) (hvideo : capture_bound st.video_capture) :
    ∃ ui video st1 t,
      tick_acquire stream_t.ui st.ui_capture = some ui ∧
      tick_acquire stream_t.video st.video_capture = some video ∧
      unicapture_run_tick sys st = some (st1, t) ∧
      t.ui_frame = ui.frame ∧ t.video_frame = video.frame ∧
      capture_bound st1.ui_capture ∧ capture_bound st1.video_capture ∧
      (∀ s, release_count s t.events
        = if (t.frame s).pixel_format ≠ PIXFMT_INVALID then 1 else 0) ∧
      (∀ s, (t.frame s).pixel_format ≠ PIXFMT_INVALID →
        event_t.release_frame s (t.frame s) ∈ t.events) ∧
      (∀ s status calls, event_t.converter_run s status calls ∈ t.events →
        (t.frame s).pixel_format ≠ PIXFMT_INVALID ∧
        (status ≠ 0 → (t.frame_converted s).pixel_format = PIXFMT_INVALID)) ∧
      (blend_count t.events
        = if t.video_frame_converted.pixel_format ≠ PIXFMT_INVALID ∧
            t.ui_frame_converted.pixel_format ≠ PIXFMT_INVALID then 1 else 0) ∧
      ((t.video_frame_converted.pixel_format = PIXFMT_INVALID ∨
          t.ui_frame_converted.pixel_format = PIXFMT_INVALID) →
        st1.blended_frame = st.blended_frame ∧ st1.final_frame = st.final_frame) := by
  obtain ⟨ui, video, ui_r, video_r, st1, t, h1, h2, h3, h4, ht, hc1, hc2, hf1, hf2, hfc1, hfc2,
    hb, hfin, hev⟩ := unicapture_run_tick_stages sys st hui hvideo
  have hbu := tick_acquire_bound _ _ _ h1 hui
  have hbv := tick_acquire_bound _ _ _ h2 hvideo
  have hru := tick_release_events _ _ _ _ h3 hbu.1
  have hrv := tick_release_events _ _ _ _ h4 hbv.1
  have hau := tick_acquire_events _ _ _ h1
  have hav := tick_acquire_events _ _ _ h2
  have hcu := tick_convert_events sys stream_t.ui st.heap st.ui_converter ui.frame
  have hcv := tick_convert_events sys stream_t.video
    (tick_convert sys stream_t.ui st.heap st.ui_converter ui.frame).heap
    st.video_converter video.frame
  have hco := tick_composite_events sys
    (tick_convert sys stream_t.video
      (tick_convert sys stream_t.ui st.heap st.ui_converter ui.frame).heap
      st.video_converter video.frame).heap
    st.blended_frame st.final_frame t.ui_frame_converted t.video_frame_converted
  refine ⟨ui, video, st1, t, h1, h2, ht, hf1, hf2, hc1 ▸ hru.1, hc2 ▸ hrv.1, ?_, ?_, ?_, ?_, ?_⟩
  · intro s
    rw [hev]
    simp only [release_count_append, hco.1 s, hru.2, hrv.2,
      (tick_acquire_counts _ _ _ h1).1 s, (tick_acquire_counts _ _ _ h2).1 s,
      (tick_convert_counts sys _ _ _ _).1 s]
    cases s <;> simp only [tick_t.frame, hf1, hf2] <;> split_ifs <;> simp [release_count]
  · intro s hs
    rw [hev]
    cases s
    · simp only [tick_t.frame, hf1] at hs
      simp [hru.2, hs, tick_t.frame, hf1]
    · simp only [tick_t.frame, hf2] at hs
      simp [hrv.2, hs, tick_t.frame, hf2]
  · intro s status calls hmem
    rw [hev] at hmem
    simp only [List.mem_append] at hmem
    have hnu : event_t.converter_run s status calls ∉ ui.events := by
      rcases hau with hau | ⟨r1, hau⟩ <;> simp [hau]
    have hnv : event_t.converter_run s status calls ∉ video.events := by
      rcases hav with hav | ⟨r2, hav⟩ <;> simp [hav]
    have hnru : event_t.converter_run s status calls ∉ ui_r.events := by
      rw [hru.2]; split_ifs <;> simp
    have hnrv : event_t.converter_run s status calls ∉ video_r.events := by
      rw [hrv.2]; split_ifs <;> simp
    have hnco := hco.2.1 s status calls
    rcases hmem with (((((hm | hm) | hm) | hm) | hm) | hm) | hm
    · exact absurd hm hnu
    · exact absurd hm hnv
    · rcases hcu with hcu | hcu
      · simp [hcu.1] at hm
      · rw [hcu.2.1] at hm
        simp only [List.mem_singleton, event_t.converter_run.injEq] at hm
        obtain ⟨rfl, rfl, _⟩ := hm
        exact ⟨by simpa [tick_t.frame, hf1] using hcu.1,
          by simpa [tick_t.frame_converted, hfc1] using hcu.2.2⟩
    · rcases hcv with hcv | hcv
      · simp [hcv.1] at hm
      · rw [hcv.2.1] at hm
        simp only [List.mem_singleton, event_t.converter_run.injEq] at hm
        obtain ⟨rfl, rfl, _⟩ := hm
        exact ⟨by simpa [tick_t.frame, hf2] using hcv.1,
          by simpa [tick_t.frame_converted, hfc2] using hcv.2.2⟩
    · exact absurd hm hnco
    · exact absurd hm hnru
    · exact absurd hm hnrv
  · rw [hev]
    simp only [blend_count_append, hco.2.2.1, hru.2, hrv.2,
      (tick_acquire_counts _ _ _ h1).2, (tick_acquire_counts _ _ _ h2).2,
      (tick_convert_counts sys _ _ _ _).2]
    split_ifs <;> simp [blend_count]
  · intro hinv
    rw [hb, hfin]
    exact hco.2.2.2 hinv

/-- With bound backends the loop runs every iteration it is signalled for. -/
theorem unicapture_run_loop_total (sys : allocator_t) (n : Nat) :
    ∀ st : run_t, capture_bound st.ui_capture → capture_bound st.video_capture →
    ∃ st2 ts, unicapture_run_loop sys n st = some (st2, ts) ∧ ts.length = n := by
  induction n with
  | zero => intro st _ _; exact ⟨st, [], rfl, rfl⟩
  | succ n ih =>
    intro st hui hvideo
    obtain ⟨_, _, st1, t, _, _, ht, _, _, hb1, hb2, _⟩ :=
      unicapture_run_tick_calls sys st hui hvideo
    obtain ⟨st2, ts, hl, hlen⟩ := ih st1 hb1 hb2
    exact ⟨st2, t :: ts, by simp [unicapture_run_loop, ht, hl], by simp [hlen]⟩

/-- The set-up completes on a backend whose start pointer is bound, and keeps
the pointers of the loop bound. -/
theorem run_start_some (capture : Option capture_backend_t)
    (hs : start_bound capture) (hb : capture_bound capture) :
    ∃ c, run_start capture = some c ∧ capture_bound c := by
  cases capture with
  | none => exact ⟨none, rfl, hb⟩
  | some b =>
    obtain ⟨f, hf⟩ := Option.isSome_iff_exists.mp (hs b rfl)
    refine ⟨some { b with state := (f b.state).2 }, by simp only [run_start, hf], ?_⟩
    intro b1 hb1
    cases hb1
    exact hb b rfl

/-- With bound backends unicapture_run runs one iteration for every vsync
signal. -/
theorem unicapture_run_total (sys : allocator_t) (heap : Nat) (state : unicapture_state_t)
    (signals : Nat)
    (hsu : start_bound state.ui_capture) (hbu : capture_bound state.ui_capture)
    (hsv : start_bound state.video_capture) (hbv : capture_bound state.video_capture) :
    ∃ st ts, unicapture_run sys heap state signals = some (st, ts) ∧
      ts.length = signals := by
  obtain ⟨cu, hcu, hbcu⟩ := run_start_some state.ui_capture hsu hbu
  obtain ⟨cv, hcv, hbcv⟩ := run_start_some state.video_capture hsv hbv
  obtain ⟨st, ts, hl, hlen⟩ := unicapture_run_loop_total sys signals
    (run_initial heap cu cv) hbcu hbcv
  exact ⟨st, ts, by simp only [unicapture_run, hcu, hcv, hl], hlen⟩

/-! ## Release, compositing and conversion failure in the loop -/

/-- The example backend has its function pointers bound. -/
theorem example_backend_bound (acquire_status : Int) (frame : frame_info_t) :
    capture_bound (some (example_backend acquire_status frame)) := by
  intro b hb
  cases hb
  exact ⟨rfl, rfl⟩

theorem capture_bound_none : capture_bound none := by
  intro b hb
  cases hb

/-- C5 as stated fails: the UI backend is present and its acquire_frame returns
status 0, handing back a descriptor whose format is INVALID; the iteration
makes no release_frame call on it. -/
theorem unicapture_run_tick_no_release :
    (example_backend 0 frame_invalid).acquire_frame.map
      (fun f => (f (example_backend 0 frame_invalid).state frame_invalid).1) = some 0 ∧
    (unicapture_run_tick bump_alloc
      (run_initial 0 (some (example_backend 0 frame_invalid)) none)).map
      (fun r => r.2.events)
      = some [event_t.acquire_frame stream_t.ui 0, event_t.warn_no_valid_frame] ∧
    (unicapture_run_tick bump_alloc
      (run_initial 0 (some (example_backend 0 frame_invalid)) none)).map
      (fun r => release_count stream_t.ui r.2.events) = some 0 := by
  decide

/-- C5, amended: in every iteration of the loop of unicapture_run and for each
stream (UI, video) whose backend is present, release_frame is called on that
backend exactly once, with the acquired frame, if acquire_frame returned
status 0 and handed back a frame whose format is not INVALID; it is not
called if acquire_frame failed, if the frame handed back has format INVALID,
or if the backend is absent.  The calls of the convert and composite stages
do not enter into it. -/
theorem unicapture_run_tick_release (sys : allocator_t) (st : run_t)
    (hui : capture_bound st.ui_capture) (hvideo : capture_bound st.video_capture) :
    ∃ st1 t, unicapture_run_tick sys st = some (st1, t) ∧
      ∀ s,
        (st.capture s = none → release_count s t.events = 0) ∧
        (∀ b f, st.capture s = some b → b.acquire_frame = some f →
          (((f b.state frame_invalid).1 = 0 ∧
              (f b.state frame_invalid).2.1.pixel_format ≠ PIXFMT_INVALID) →
            release_count s t.events = 1 ∧
            event_t.release_frame s (f b.state frame_invalid).2.1 ∈ t.events) ∧
          (((f b.state frame_invalid).1 ≠ 0 ∨
              (f b.state frame_invalid).2.1.pixel_format = PIXFMT_INVALID) →
            release_count s t.events = 0)) := by
  obtain ⟨ui, video, st1, t, h1, h2, ht, hf1, hf2, _, _, hrel, hmem, _⟩ :=
    unicapture_run_tick_calls sys st hui hvideo
  refine ⟨st1, t, ht, ?_⟩
  have key : ∀ (s : stream_t) (a : acquire_t), tick_acquire s (st.capture s) = some a →
      t.frame s = a.frame →
      (st.capture s = none → release_count s t.events = 0) ∧
      (∀ b f, st.capture s = some b → b.acquire_frame = some f →
        (((f b.state frame_invalid).1 = 0 ∧
            (f b.state frame_invalid).2.1.pixel_format ≠ PIXFMT_INVALID) →
          release_count s t.events = 1 ∧
          event_t.release_frame s (f b.state frame_invalid).2.1 ∈ t.events) ∧
        (((f b.state frame_invalid).1 ≠ 0 ∨
            (f b.state frame_invalid).2.1.pixel_format = PIXFMT_INVALID) →
          release_count s t.events = 0)) := by
    intro s a ha hfr
    constructor
    · intro hnone
      rw [hnone] at ha
      have hinv := tick_acquire_absent s a ha
      rw [hrel s, hfr, hinv]
      simp [frame_invalid]
    · intro b f hb hf
      rw [hb] at ha
      obtain ⟨hiff, hsame, _⟩ := tick_acquire_present s b f hf a ha
      constructor
      · intro hok
        have hvalid : (t.frame s).pixel_format ≠ PIXFMT_INVALID := by
          rw [hfr]; exact hiff.mpr hok
        refine ⟨by rw [hrel s, if_pos hvalid], ?_⟩
        have := hmem s hvalid
        rw [hfr, hsame hok.1] at this
        exact this
      · intro hbad
        have hinvalid : ¬ (t.frame s).pixel_format ≠ PIXFMT_INVALID := by
          rw [hfr]
          intro hv
          have := hiff.mp hv
          rcases hbad with hbad | hbad
          · exact hbad this.1
          · exact this.2 hbad
        rw [hrel s, if_neg hinvalid]
  intro s
  cases s
  · exact key stream_t.ui ui h1 hf1
  · exact key stream_t.video video h2 hf2

/-- C5, amended, at a UI backend handing back a 2 x 2 RGB frame with status 0,
no video backend: one release_frame call on the UI backend. -/
theorem unicapture_run_tick_release_witness :
    capture_bound (run_initial 0 (some (example_backend 0 (rgb_frame 2 2))) none).ui_capture ∧
    (unicapture_run_tick bump_alloc
      (run_initial 0 (some (example_backend 0 (rgb_frame 2 2))) none)).map
      (fun r => release_count stream_t.ui r.2.events) = some 1 := by
  refine ⟨example_backend_bound 0 (rgb_frame 2 2), ?_⟩
  obtain ⟨st1, t, ht, h⟩ := unicapture_run_tick_release bump_alloc
    (run_initial 0 (some (example_backend 0 (rgb_frame 2 2))) none)
    (example_backend_bound 0 (rgb_frame 2 2)) capture_bound_none
  rw [ht]
  have h1 := ((h stream_t.ui).2 (example_backend 0 (rgb_frame 2 2))
    (fun st _ => (0, rgb_frame 2 2, st + 1)) rfl rfl).1 ⟨rfl, by decide⟩
  simp [h1.1]

/-- C6 fails on the code: with a UI backend handing back a valid 2 x 2 RGB frame
and no video backend, the converted UI frame is a valid ARGB frame in the
scratch buffer at address 4096, the converted video frame is INVALID, and the
iteration makes the acquire, convert and release calls only: ARGBBlend is not
called and the two output buffers blended_frame and final_frame are still
NULL at the end of the iteration. -/
theorem unicapture_run_tick_single_stream :
    (unicapture_run_tick bump_alloc
      (run_initial 0 (some (example_backend 0 (rgb_frame 2 2))) none)).map
      (fun r => (r.2.ui_frame_converted.pixel_format, r.2.video_frame_converted.pixel_format,
        r.2.ui_frame_converted.planes0.buffer))
      = some (PIXFMT_ARGB, PIXFMT_INVALID, 4096) ∧
    (unicapture_run_tick bump_alloc
      (run_initial 0 (some (example_backend 0 (rgb_frame 2 2))) none)).map
      (fun r => (r.1.blended_frame, r.1.final_frame)) = some (buffer_null, buffer_null) ∧
    (unicapture_run_tick bump_alloc
      (run_initial 0 (some (example_backend 0 (rgb_frame 2 2))) none)).map
      (fun r => r.2.events)
      = some [event_t.acquire_frame stream_t.ui 0,
          event_t.converter_run stream_t.ui 0
            [call_t.realloc 0 16, call_t.RGB24ToARGB 64 6 4096 8 2 2],
          event_t.release_frame stream_t.ui (rgb_frame 2 2)] := by
  decide

/-- C7: in every iteration of the loop of unicapture_run, if converter_run
returns a non-zero status for the acquired frame of a stream, the converted
descriptor of that stream has format INVALID at the composite stage, ARGBBlend
is not called, the release stage is reached (release_frame is called once on
that stream), and the loop goes on to the following iterations. -/
theorem unicapture_run_conversion_failure (sys : allocator_t) (st : run_t)
    (hui : capture_bound st.ui_capture) (hvideo : capture_bound st.video_capture)
    (n : Nat) :
    ∃ st1 t st2 ts, unicapture_run_tick sys st = some (st1, t) ∧
      unicapture_run_loop sys (n + 1) st = some (st2, t :: ts) ∧ ts.length = n ∧
      ∀ s status calls, event_t.converter_run s status calls ∈ t.events → status ≠ 0 →
        (t.frame_converted s).pixel_format = PIXFMT_INVALID ∧
        blend_count t.events = 0 ∧
        release_count s t.events = 1 := by
  obtain ⟨_, _, st1, t, _, _, ht, _, _, hb1, hb2, hrel, _, hconv, hblend, _⟩ :=
    unicapture_run_tick_calls sys st hui hvideo
  obtain ⟨st2, ts, hl, hlen⟩ := unicapture_run_loop_total sys n st1 hb1 hb2
  refine ⟨st1, t, st2, ts, ht, by simp [unicapture_run_loop, ht, hl], hlen, ?_⟩
  intro s status calls hmem hne
  obtain ⟨hvalid, hinv⟩ := hconv s status calls hmem
  have hi := hinv hne
  refine ⟨hi, ?_, by rw [hrel s, if_pos hvalid]⟩
  rw [hblend]
  cases s
  · simp only [tick_t.frame_converted] at hi
    simp [hi]
  · simp only [tick_t.frame_converted] at hi
    simp [hi]

/-- C7 at a UI backend handing back, with status 0, a frame of a format the
converter does not support, no video backend, three iterations: converter_run
returns -2 in the first, the converted UI frame is INVALID, and the loop runs
all three iterations. -/
theorem unicapture_run_conversion_failure_witness :
    capture_bound (run_initial 0
      (some (example_backend 0 { rgb_frame 2 2 with pixel_format := PIXFMT_OTHER 9 }))
      none).ui_capture ∧
    (unicapture_run_tick bump_alloc (run_initial 0
      (some (example_backend 0 { rgb_frame 2 2 with pixel_format := PIXFMT_OTHER 9 }))
      none)).map (fun r => (r.2.ui_frame_converted.pixel_format,
        release_count stream_t.ui r.2.events)) = some (PIXFMT_INVALID, 1) ∧
    (unicapture_run_loop bump_alloc (2 + 1) (run_initial 0
      (some (example_backend 0 { rgb_frame 2 2 with pixel_format := PIXFMT_OTHER 9 }))
      none)).map (fun r => r.2.length) = some 3 := by
  refine ⟨example_backend_bound 0 _, ?_⟩
  obtain ⟨st1, t, st2, ts, ht, hl, hlen, h⟩ := unicapture_run_conversion_failure bump_alloc
    (run_initial 0
      (some (example_backend 0 { rgb_frame 2 2 with pixel_format := PIXFMT_OTHER 9 })) none)
    (example_backend_bound 0 _) capture_bound_none 2
  have hev : event_t.converter_run stream_t.ui (-2) [call_t.realloc 0 16] ∈ t.events := by
    have hd : (unicapture_run_tick bump_alloc (run_initial 0
        (some (example_backend 0 { rgb_frame 2 2 with pixel_format := PIXFMT_OTHER 9 }))
        none)).map (fun r => decide (event_t.converter_run stream_t.ui (-2)
          [call_t.realloc 0 16] ∈ r.2.events)) = some true := by
      decide
    rw [ht] at hd
    simpa using hd
  have h1 := h stream_t.ui (-2) [call_t.realloc 0 16] hev (by decide)
  rw [ht, hl]
  simp only [tick_t.frame_converted] at h1
  simp [h1.1, h1.2.2, hlen]

end Unicapture
